import Mathlib

/-!
# Verification of the `BaseGateway` capability-discovery core

Shallow embedding of `src/bosch_thermostat_client/gateway/base_gateway.py`
(class `BaseGateway`).  Python dictionaries are embedded as association
lists over `String` keys that keep insertion order and update in place,
matching Python's `dict` semantics for unique keys.  Python values that can
be `None`, strings, dictionaries or lists are embedded as the inductive
type `Val`.  Fallible Python code is embedded with `Except PyErr`; the
exception type distinguishes the library's `DeviceException` from the
interpreter-level errors (`KeyError`, `AttributeError`, `TypeError`) that
Python raises on bad lookups.

Collaborators that are not part of the source tree (the `const` module's
key strings, the `db` schema store, `helper.deep_into`, the `Circuits` and
`Sensors` collections and the transport connector) are embedded as oracle
fields of `Env`, each modelled from the spec where the source is absent;
see the doc comment on `Env`.
-/

/-- A Python value as it appears in the gateway's state and in transport
responses: `None`, a string, a dictionary, or a list. -/
inductive Val where
  | vnone : Val
  | str : String → Val
  | vdict : List (String × Val) → Val
  | vlist : List Val → Val

/-- Python truthiness for `Val`: `None`, `""`, `{}` and `[]` are falsy. -/
def truthy : Val → Bool
  | .vnone => false
  | .str s => !(s == "")
  | .vdict d => !d.isEmpty
  | .vlist l => !l.isEmpty

/-- Python exception kinds relevant to the embedded code:
the library's `DeviceException` plus the interpreter errors raised by bad
dictionary / attribute accesses. -/
inductive PyErr where
  | deviceException
  | keyError
  | attributeError
  | typeError
deriving DecidableEq, Repr

/-- `d[k] = v` on a Python dict embedded as an association list: replaces
the first binding of `k` in place, else appends at the end (Python dicts
keep the original insertion position on update). -/
def setA {β : Type} : List (String × β) → String → β → List (String × β)
  | [], k, v => [(k, v)]
  | (a, b) :: rest, k, v =>
      if a = k then (k, v) :: rest else (a, b) :: setA rest k v

/-- `d.update(other)` on Python dicts: every binding of `other` is written
into `d`, overwriting existing keys. -/
def updA {β : Type} (d other : List (String × β)) : List (String × β) :=
  other.foldl (fun acc p => setA acc p.1 p.2) d

/-- `d.pop(k, None)`'s effect on the dict: remove the binding of `k`. -/
def popA {β : Type} (d : List (String × β)) (k : String) : List (String × β) :=
  d.filter (fun p => !(p.1 == k))

/-- `d.get(k)` on an embedded dict (missing key gives `None`). -/
def getD0 (d : List (String × Val)) (k : String) : Val :=
  (d.lookup k).getD .vnone

/-- `v.get(k)` where `v` is a `Val`: only dictionaries have `.get`; on any
other value Python raises `AttributeError`. -/
def valGet (v : Val) (k : String) : Except PyErr Val :=
  match v with
  | .vdict d => .ok (getD0 d k)
  | _ => .error .attributeError

/-- Keys of the `bosch_thermostat_client.const` module used by
`base_gateway.py`.  The `const` module is not in the source tree; the
values are representative distinct strings (only their distinctness is
relied upon). -/
def GATEWAY : String := "gateway"

def HC : String := "hc"

def DHW : String := "dhw"

def SC : String := "solarCircuits"

def SENSORS : String := "sensors"

def SENSOR : String := "sensor"

def HEATING_CIRCUITS : String := "heatingCircuits"

def DHW_CIRCUITS : String := "dhwCircuits"

def UUID : String := "uuid"

def VALUE : String := "value"

def TYPE : String := "type"

def NAME : String := "name"

def ID : String := "id"

def REFS : String := "refs"

def MODELS : String := "models"

def DATE : String := "dateTime"

def FIRMWARE_VERSION : String := "versionFirmware"

/-- Modelled from the spec: `CIRCUIT_TYPES.keys()` — the known circuit
categories (heating circuits, domestic-hot-water circuits, solar
circuits); `const.CIRCUIT_TYPES` itself is not in the source tree. -/
def CIRCUIT_TYPES : List String := [HC, DHW, SC]

/-- One value of the `self._data` dictionary: the gateway-info sub-dict,
`None` (a category not yet probed), a `Circuits` collection (embedded by
its list of circuit instances) or a `Sensors` collection (embedded by its
list of sensor instances). -/
inductive Slot where
  | pynone : Slot
  | gw : List (String × Val) → Slot
  | circuits : List String → Slot
  | sensors : List String → Slot

/-- The mutable state of a `BaseGateway` object:
`_host`, `_data`, `_firmware_version`, `_device`, `_db`, `_initialized`,
`_bus_type`.  `_initialized` is only ever `None` or `True` in the source,
embedded as `Bool`; `_device` is the device-model descriptor mapping (or
`None`), `_db` is the bound schema (`Val.vnone` until bound). -/
structure GState where
  host : String
  data : List (String × Slot)
  firmware : Val
  device : Option (List (String × Val))
  db : Val
  initialized : Bool
  busType : Val

/-- `BaseGateway.__init__`: `_data = {GATEWAY: {}, HC: None, DHW: None,
SENSORS: None}` and every identity field unset. -/
def initState (host : String) : GState :=
  { host := host
    data := [(GATEWAY, .gw []), (HC, .pynone), (DHW, .pynone), (SENSORS, .pynone)]
    firmware := .vnone
    device := none
    db := .vnone
    initialized := false
    busType := .vnone }

/-- The collaborators of `BaseGateway` that live outside the source tree,
embedded as oracles.
* `initialDb` — `get_initial_db(self.device_type)` (schema store, spec §4.1);
* `initialDbCustom` — `get_initial_db()` as called by `custom_initialize`;
* `updateInfo` — modelled from the spec: the abstract `_update_info`
  reads the base schema's gateway-info section over the transport and
  yields the identity entries to store into `_data[GATEWAY]`; it fails
  with a `DeviceException` on communication errors;
* `getDeviceModel` — modelled from the spec: the abstract
  `get_device_model` fetches the device-model descriptor (a mapping, or
  `None` when absent), failing with a `DeviceException`;
* `getDbOfFirmware` — `get_db_of_firmware(type, firmware)`; returns the
  schema dict or `none` when the pair is unknown (soft failure, spec §4.1);
* `getCustomDb` — `get_custom_db(firmware, extra_db)`;
* `connGet` — the transport's `async get(path)`, returning a structured
  response value or failing with a `DeviceException` (spec §6);
* `childPaths` — modelled from the spec: the Tree Prober's extraction of
  the list of child-path descriptors from a fetched result (`helper.deep_into`
  is not in the source tree; an empty list marks a terminal value);
* `circInit` — `Circuits(...).initialize(db, date_provider)` for one
  category: yields the list of confirmed circuit instances, or fails with
  a `DeviceException` at category level (spec §4.3);
* `mkSensors` — `Sensors(connector, choosed_sensors, db[SENSORS])`:
  the schema-defined sensor instances (spec §4.2: not probed);
* `rootPaths` — `const.ROOT_PATHS`;
* `fuel` — the recursion bound of the Tree Prober (the spec recommends a
  maximum-depth guard; the device namespace is assumed acyclic). -/
structure Env where
  initialDb : List (String × Val)
  initialDbCustom : List (String × Val)
  updateInfo : Val → Except Unit (List (String × Val))
  getDeviceModel : Except Unit (Option (List (String × Val)))
  getDbOfFirmware : Val → Val → Option (List (String × Val))
  getCustomDb : Val → Val → List (String × Val)
  connGet : String → Except Unit Val
  childPaths : Val → List String
  circInit : String → Val → Except Unit (List String)
  mkSensors : Val → Val → List String
  rootPaths : List String
  fuel : Nat

/-- `self._data[GATEWAY]`, the gateway-info dict.  The constructor always
installs this slot and no operation removes it; the default `[]` is never
reached from a constructed state. -/
def gwData (s : GState) : List (String × Val) :=
  match s.data.lookup GATEWAY with
  | some (.gw d) => d
  | _ => []

/-- `BaseGateway.get_info`: `self._data[GATEWAY][key]` if present, else
`None`. -/
def get_info (s : GState) (key : String) : Option Val :=
  (gwData s).lookup key

/-- `BaseGateway.uuid` property. -/
def uuid (s : GState) : Option Val :=
  get_info s UUID

/-- `BaseGateway.firmware` property (`self._firmware_version`). -/
def firmwareProp (s : GState) : Val :=
  s.firmware

/-- `BaseGateway.database` property (`self._db`). -/
def database (s : GState) : Val :=
  s.db

/-- `BaseGateway.device_name`: `self._device.get(NAME)` when `_device` is
truthy, implicitly `None` otherwise. -/
def device_name (s : GState) : Option Val :=
  match s.device with
  | some d => if d.isEmpty then none else d.lookup NAME
  | none => none

/-- `BaseGateway.heating_circuits`: `self._data[HC].circuits`.  A missing
key raises `KeyError`; `None` or a non-`Circuits` value raises
`AttributeError`. -/
def heating_circuits (s : GState) : Except PyErr (List String) :=
  match s.data.lookup HC with
  | some (.circuits cs) => .ok cs
  | some _ => .error .attributeError
  | none => .error .keyError

/-- `BaseGateway.dhw_circuits`: `self._data[DHW].circuits`. -/
def dhw_circuits (s : GState) : Except PyErr (List String) :=
  match s.data.lookup DHW with
  | some (.circuits cs) => .ok cs
  | some _ => .error .attributeError
  | none => .error .keyError

/-- `BaseGateway.solar_circuits`: `self._data[SC].circuits`. -/
def solar_circuits (s : GState) : Except PyErr (List String) :=
  match s.data.lookup SC with
  | some (.circuits cs) => .ok cs
  | some _ => .error .attributeError
  | none => .error .keyError

/-- `BaseGateway.sensors`: `self._data[SENSORS].sensors`. -/
def sensors (s : GState) : Except PyErr (List String) :=
  match s.data.lookup SENSORS with
  | some (.sensors ss) => .ok ss
  | some _ => .error .attributeError
  | none => .error .keyError

/-- `BaseGateway.get_circuits`: `self._data[ctype].circuits if ctype in
self._data else None`. -/
def get_circuits (s : GState) (ctype : String) : Except PyErr (Option (List String)) :=
  match s.data.lookup ctype with
  | none => .ok none
  | some (.circuits cs) => .ok (some cs)
  | some _ => .error .attributeError

/-- `BaseGateway.initialize`: update the gateway-info dict from the
transport, set `_firmware_version` from it, fetch the device-model
descriptor, and — when the descriptor is truthy and carries `VALUE` —
bind `get_db_of_firmware(device[TYPE], firmware)`, merge the base schema
minus its `MODELS` section into it with `dict.update`, and set
`_initialized = True` only when the bound schema is truthy.
Returns the state reached together with the exception that escaped, if
any (`DeviceException` from the transport oracles, `KeyError` when the
descriptor lacks `TYPE`). -/
def initializeGw (env : Env) (s : GState) : GState × Option PyErr :=
  match env.updateInfo (getD0 env.initialDb GATEWAY) with
  | .error _ => (s, some .deviceException)
  | .ok fetched =>
    let gw1 := updA (gwData s) fetched
    let s2 : GState :=
      { s with data := setA s.data GATEWAY (.gw gw1)
               firmware := (gw1.lookup FIRMWARE_VERSION).getD .vnone }
    match env.getDeviceModel with
    | .error _ => (s2, some .deviceException)
    | .ok dev =>
      let s3 : GState := { s2 with device := dev }
      match dev with
      | none => (s3, none)
      | some d =>
        if d.isEmpty then (s3, none)
        else if (d.lookup VALUE).isSome then
          match d.lookup TYPE with
          | none => (s3, some .keyError)
          | some dtype =>
            match env.getDbOfFirmware dtype s3.firmware with
            | none => ({ s3 with db := .vnone }, none)
            | some dbd =>
              if dbd.isEmpty then ({ s3 with db := .vdict dbd }, none)
              else
                ({ s3 with
                    db := .vdict (updA dbd (popA env.initialDb MODELS))
                    initialized := true }, none)
        else (s3, none)

/-- `BaseGateway.custom_initialize`: when `_firmware_version` is truthy,
bind `get_custom_db(firmware, extra_db)`, merge the base schema minus
`MODELS` into it, and set `_initialized = True`; otherwise do nothing. -/
def customInitGw (env : Env) (s : GState) (extraDb : Val) : GState :=
  if truthy s.firmware then
    { s with
        db := .vdict (updA (env.getCustomDb s.firmware extraDb)
                           (popA env.initialDbCustom MODELS))
        initialized := true }
  else s

/-- `BaseGateway.initialize_circuits`: store a `Circuits` collection for
the category and run its discovery; on a `DeviceException` the slot keeps
the freshly constructed, still-empty collection.  Returns the discovered
circuit list alongside the new state. -/
def initCircuits (env : Env) (s : GState) (ct : String) :
    GState × Except Unit (List String) :=
  match env.circInit ct s.db with
  | .error e => ({ s with data := setA s.data ct (.circuits []) }, .error e)
  | .ok cs => ({ s with data := setA s.data ct (.circuits cs) }, .ok cs)

/-- The `for circuit in CIRCUIT_TYPES.keys()` loop of
`BaseGateway.get_capabilities`: a category is appended to `supported`
when its discovery neither raises `DeviceException` nor yields an empty
(falsy) collection. -/
def getCapLoop (env : Env) : List String → GState → List String → GState × List String
  | [], s, acc => (s, acc)
  | ct :: rest, s, acc =>
    match initCircuits env s ct with
    | (s', .error _) => getCapLoop env rest s' acc
    | (s', .ok cs) =>
        getCapLoop env rest s' (if cs.isEmpty then acc else acc ++ [ct])

/-- `BaseGateway.initialize_sensors`: resolve `choosed_sensors` (falling
back to `self._db.get(SENSORS)`, which raises `AttributeError` when `_db`
is not a dict), index `self._db[SENSORS]` (raising `KeyError` when the
section is missing, `TypeError` when `_db` is not a dict), and store the
`Sensors` collection. -/
def initSensors (env : Env) (s : GState) (choosed : Val) :
    GState × Except PyErr (List String) :=
  match (if truthy choosed then .ok choosed else valGet s.db SENSORS :
      Except PyErr Val) with
  | .error e => (s, .error e)
  | .ok ch =>
    match s.db with
    | .vdict d =>
      match d.lookup SENSORS with
      | none => (s, .error .keyError)
      | some dbS =>
        ({ s with data := setA s.data SENSORS (.sensors (env.mkSensors ch dbS)) },
         .ok (env.mkSensors ch dbS))
    | _ => (s, .error .typeError)

/-- `BaseGateway.get_capabilities`: probe every circuit category, catching
only `DeviceException`, then always initialize the sensors and append
`SENSOR`.  An exception raised by `initialize_sensors` (possible when the
bound schema lacks a sensors section) escapes. -/
def get_capabilities (env : Env) (s : GState) :
    GState × Except PyErr (List String) :=
  let r := getCapLoop env CIRCUIT_TYPES s []
  let r2 := initSensors env r.1 .vnone
  match r2.2 with
  | .ok _ => (r2.1, .ok (r.2 ++ [SENSOR]))
  | .error e => (r2.1, .error e)

/-- `self._db[GATEWAY][UUID]` as evaluated by `check_connection` and the
path handed to the transport (which, per its contract, takes a string
path; a non-string entry is a contract violation embedded as
`TypeError`). -/
def dbGwUuidPath (dbv : Val) : Except PyErr String :=
  match dbv with
  | .vdict d =>
    match d.lookup GATEWAY with
    | some (.vdict g) =>
      match g.lookup UUID with
      | some (.str p) => .ok p
      | some _ => .error .typeError
      | none => .error .keyError
    | some _ => .error .typeError
    | none => .error .keyError
  | _ => .error .typeError

/-- Whether `needle` occurs at the head of `hay`. -/
def hasSubAt : List Char → List Char → Bool
  | [], _ => true
  | _ :: _, [] => false
  | c :: cs, d :: ds => c = d && hasSubAt cs ds

/-- Whether `needle` occurs anywhere in the character list. -/
def hasSub (needle : List Char) : List Char → Bool
  | [] => needle.isEmpty
  | d :: ds => hasSubAt needle (d :: ds) || hasSub needle ds

/-- Python's `k in s` for two strings: substring containment. -/
def pyInStr (needle s : String) : Bool :=
  hasSub needle.toList s.toList

/-- Python's `k in l` for a string `k` and a list: membership by `==`,
which a `Val` element satisfies only when it is the equal string. -/
def pyInList (k : String) : List Val → Bool
  | [] => false
  | .str s :: rest => s = k || pyInList k rest
  | _ :: rest => pyInList k rest

/-- `BaseGateway.check_connection`: run a full `initialize` when not yet
initialized, otherwise fetch the single UUID path and overwrite the
cached UUID only when the response is a dictionary with a `VALUE` entry;
catch `DeviceException` in either branch and return `get_info(UUID)`.
`VALUE in response` follows Python's `in` operator: on a `None` response
it raises an uncaught `TypeError`, on a string or list response it is a
substring / membership test, and when it succeeds there the subsequent
`response[VALUE]` string-index raises an uncaught `TypeError` before any
state is written.  The last component lists the paths fetched directly
by this method's own body. -/
def check_connection (env : Env) (s : GState) :
    GState × Except PyErr (Option Val) × List String :=
  if s.initialized then
    match dbGwUuidPath s.db with
    | .error e => (s, .error e, [])
    | .ok path =>
      match env.connGet path with
      | .error _ => (s, .ok (get_info s UUID), [path])
      | .ok resp =>
        match resp with
        | .vdict rd =>
          match rd.lookup VALUE with
          | some v =>
            let s' : GState :=
              { s with data := setA s.data GATEWAY (.gw (setA (gwData s) UUID v)) }
            (s', .ok (get_info s' UUID), [path])
          | none => (s, .ok (get_info s UUID), [path])
        | .vnone => (s, .error .typeError, [path])
        | .str a =>
          if pyInStr VALUE a then (s, .error .typeError, [path])
          else (s, .ok (get_info s UUID), [path])
        | .vlist l =>
          if pyInList VALUE l then (s, .error .typeError, [path])
          else (s, .ok (get_info s UUID), [path])
  else
    match initializeGw env s with
    | (s1, none) => (s1, .ok (get_info s1 UUID), [])
    | (s1, some .deviceException) => (s1, .ok (get_info s1 UUID), [])
    | (s1, some e) => (s1, .error e, [])

/-- `BaseGateway.current_date`: fetch `self._db[GATEWAY].get(DATE)` and
store `response.get(VALUE)` under `DATE` in the gateway-info dict. -/
def current_date (env : Env) (s : GState) : GState × Except PyErr Val :=
  match s.db with
  | .vdict d =>
    match d.lookup GATEWAY with
    | some (.vdict g) =>
      match (g.lookup DATE).getD .vnone with
      | .str p =>
        match env.connGet p with
        | .error _ => (s, .error .deviceException)
        | .ok resp =>
          match resp with
          | .vdict rd =>
            let v := (rd.lookup VALUE).getD .vnone
            ({ s with data := setA s.data GATEWAY (.gw (setA (gwData s) DATE v)) },
             .ok v)
          | _ => (s, .error .attributeError)
      | _ => (s, .error .typeError)
    | some _ => (s, .error .attributeError)
    | none => (s, .error .keyError)
  | _ => (s, .error .typeError)

/-- Modelled from the spec: `helper.deep_into` (the Tree Prober's
`deep_scan`, source not in the tree).  Fetch the path; when the result
carries child-path descriptors, recurse into each child depth-first and
assemble the results in traversal order; a terminal value is returned as
is.  `fuel` is the recommended maximum-depth guard; the second component
is the list of fetched paths in order. -/
def deep_into (env : Env) : Nat → String → Val × List String
  | 0, _ => (.vnone, [])
  | fuel + 1, path =>
    match env.connGet path with
    | .error _ => (.vnone, [path])
    | .ok v =>
      match env.childPaths v with
      | [] => (v, [path])
      | c :: cs =>
        let rs := (c :: cs).map (fun q => deep_into env fuel q)
        (.vlist (rs.map Prod.fst), path :: (rs.map Prod.snd).flatten)

/-- `BaseGateway.rawscan`: run `deep_into` from every configured root
path. -/
def rawscan (env : Env) (s : GState) : GState × List Val × List String :=
  let rs := env.rootPaths.map (fun p => deep_into env env.fuel p)
  (s, rs.map Prod.fst, (rs.map Prod.snd).flatten)

/-- Split a character list at the first occurrence of the two-character
placeholder `\x7b\x7d`, if any. -/
def splitBrace : List Char → Option (List Char × List Char)
  | [] => none
  | [_] => none
  | c1 :: c2 :: rest =>
    if c1 = '\x7b' ∧ c2 = '\x7d' then some ([], rest)
    else (splitBrace (c2 :: rest)).map (fun p => (c1 :: p.1, p.2))

/-- `"...".format(format_string)`: substitute the instance label for the
positional placeholder.  Schema path templates carry at most one
placeholder. -/
def pyFormat1 (template label : String) : String :=
  match splitBrace template.toList with
  | some (a, b) => String.mk a ++ label ++ String.mk b
  | none => template


/-- `item[ID].format(format_string)` for one reference descriptor of
`smallscan`: indexing a non-dict raises `TypeError`, a missing `ID`
raises `KeyError`, and `.format` on a non-string raises
`AttributeError`. -/
def itemUri (fmt : String) (item : Val) : Except PyErr String :=
  match item with
  | .vdict d =>
    match d.lookup ID with
    | some (.str tmpl) => .ok (pyFormat1 tmpl fmt)
    | some _ => .error .attributeError
    | none => .error .keyError
  | _ => .error .typeError

/-- The reference set and instance label chosen by `smallscan` for the
requested category: `_db[HEATING_CIRCUITS][REFS]` with label `"hc1"`,
`_db[DHW_CIRCUITS][REFS]` with `"dhw1"`, else `_db[SENSORS]` with `""`
(all read with `.get`). -/
def smallscanRefs (dbv : Val) (t : String) : Except PyErr (Val × String) :=
  if t = HC then
    match valGet dbv HEATING_CIRCUITS with
    | .error e => .error e
    | .ok hcs =>
      match valGet hcs REFS with
      | .error e => .error e
      | .ok r => .ok (r, "hc1")
  else if t = DHW then
    match valGet dbv DHW_CIRCUITS with
    | .error e => .error e
    | .ok dhws =>
      match valGet dhws REFS with
      | .error e => .error e
      | .ok r => .ok (r, "dhw1")
  else
    match valGet dbv SENSORS with
    | .error e => .error e
    | .ok r => .ok (r, "")

/-- The `for item in refs.values()` loop of `smallscan`: one `deep_into`
run per reference, with the label substituted into its path template.
The trace lists every path fetched up to the point an exception is
raised. -/
def smallscanLoop (env : Env) (fmt : String) :
    List Val → Except PyErr (List Val) × List String
  | [] => (.ok [], [])
  | item :: rest =>
    match itemUri fmt item with
    | .error e => (.error e, [])
    | .ok uri =>
      let r := deep_into env env.fuel uri
      let rec' := smallscanLoop env fmt rest
      (rec'.1.map (fun vs => r.1 :: vs), r.2 ++ rec'.2)

/-- `BaseGateway.smallscan`: resolve the category's reference set from
the bound schema and run one `deep_into` per reference with the instance
label substituted.  The gateway state is not modified; the last component
is the trace of fetched paths. -/
def smallscan (env : Env) (s : GState) (t : String) :
    GState × Except PyErr (List Val) × List String :=
  match smallscanRefs s.db t with
  | .error e => (s, .error e, [])
  | .ok (refs, fmt) =>
    match refs with
    | .vdict rd =>
      match smallscanLoop env fmt (rd.map Prod.snd) with
      | (r, tr) => (s, r, tr)
    | _ => (s, .error .attributeError, [])

/-- Keys of an embedded dict, in order. -/
def keysOf {β : Type} (d : List (String × β)) : List String :=
  d.map Prod.fst

/-- Whether `get_capabilities` reports a circuit category as supported:
its discovery neither raises `DeviceException` nor yields an empty
collection. -/
def circOk (env : Env) (dbv : Val) (ct : String) : Bool :=
  match env.circInit ct dbv with
  | .ok cs => !cs.isEmpty
  | .error _ => false

/-- The slot a `get_capabilities` run leaves for a circuit category: the
discovered collection, or the freshly constructed empty one when the
category's discovery raised `DeviceException`. -/
def expectedCircSlot (env : Env) (dbv : Val) (ct : String) : Slot :=
  match env.circInit ct dbv with
  | .ok cs => .circuits cs
  | .error _ => .circuits []

/-- The firmware version `initialize` stores: the `FIRMWARE_VERSION`
entry of the gateway-info dict right after the `_update_info` read. -/
def fwAfter (s : GState) (fetched : List (String × Val)) : Val :=
  ((updA (gwData s) fetched).lookup FIRMWARE_VERSION).getD .vnone

/-- Whether an `Except` computation succeeded. -/
def isOkE {ε α : Type} : Except ε α → Bool
  | .ok _ => true
  | .error _ => false

/-- The success value of an `Except` computation, if any. -/
def toOptE {ε α : Type} : Except ε α → Option α
  | .ok a => some a
  | .error _ => none

/-- Base schema used by the concrete witness environment. -/
def baseDbW : List (String × Val) :=
  [(GATEWAY, .vdict [(UUID, .str "/gateway/uuid"), (DATE, .str "/gateway/DateTime")]),
   (SENSORS, .vdict [("outdoor", .vdict [(ID, .str "/system/sensors/temperatures/outdoor_t1")])]),
   (MODELS, .vdict [])]

/-- Firmware-specific schema used by the concrete witness environment; it
deliberately also carries a `SENSORS` section so the merge direction is
observable. -/
def fwDbW : List (String × Val) :=
  [(HEATING_CIRCUITS, .vdict [(REFS, .vdict [("t1", .vdict [(ID, .str "/hc/\x7b\x7d/temp")])])]),
   (SENSORS, .str "fw")]

/-- Concrete environment for witnesses: heating-circuit discovery yields
one circuit, dhw discovery fails with a `DeviceException`, solar
discovery yields an empty collection; every transport read succeeds. -/
def envW : Env :=
  { initialDb := baseDbW
    initialDbCustom := baseDbW
    updateInfo := fun _ => .ok [(FIRMWARE_VERSION, .str "1.2.3"), (UUID, .str "123456789")]
    getDeviceModel := .ok (some [(VALUE, .str "RC300"), (TYPE, .str "rc300"), (NAME, .str "RC300")])
    getDbOfFirmware := fun _ _ => some fwDbW
    getCustomDb := fun _ _ => fwDbW
    connGet := fun p =>
      if p = "/gateway/uuid" then .ok (.vdict [(VALUE, .str "123456789")])
      else .ok (.str "leaf")
    childPaths := fun _ => []
    circInit := fun ct _ =>
      if ct = HC then .ok ["hc1"] else if ct = DHW then .error () else .ok []
    mkSensors := fun _ _ => ["outdoor"]
    rootPaths := ["/"]
    fuel := 8 }

/-- The witness environment with a transport whose every read fails. -/
def envFail : Env :=
  { envW with connGet := fun _ => .error () }

/-- The witness environment with a transport whose every read succeeds
with a `None` response. -/
def envNull : Env :=
  { envW with connGet := fun _ => .ok .vnone }

/-- The gateway state reached by running `initialize` on a fresh gateway
in the witness environment. -/
def sW : GState :=
  (initializeGw envW (initState "host")).1

/-- The schema bound in `sW`: the firmware schema updated with the base
schema minus its `MODELS` section. -/
def mergedW : List (String × Val) :=
  updA fwDbW (popA baseDbW MODELS)

/-- Environment for the `smallscan` counterexample: the one heating
circuit reference answers with a node that lists two children, each of
which is terminal. -/
def envC4 : Env :=
  { envW with
    connGet := fun p =>
      if p = "/hc/hc1/temp" then .ok (.str "node")
      else if p = "/a" then .ok (.str "A")
      else if p = "/b" then .ok (.str "B")
      else .error ()
    childPaths := fun v =>
      match v with
      | .str s => if s = "node" then ["/a", "/b"] else []
      | _ => []
    fuel := 3 }

/-! ## Association-list lemmas -/

theorem lookup_cons_self {β : Type} (a : String) (b : β) (l : List (String × β)) :
    ((a, b) :: l).lookup a = some b := by
  simp [List.lookup]

theorem lookup_cons_ne {β : Type} (a k : String) (b : β) (l : List (String × β))
    (h : k ≠ a) : ((a, b) :: l).lookup k = l.lookup k := by
  have hb : (k == a) = false := beq_eq_false_iff_ne.mpr h
  simp [List.lookup, hb]

theorem lookup_setA_self {β : Type} (d : List (String × β)) (k : String) (v : β) :
    (setA d k v).lookup k = some v := by
  induction d with
  | nil => simp [setA, List.lookup]
  | cons p rest ih =>
    obtain ⟨a, b⟩ := p
    by_cases h : a = k
    · simp [setA, h, lookup_cons_self]
    · simp only [setA, h, if_false]
      rw [lookup_cons_ne a k b _ (Ne.symm h), ih]

theorem lookup_setA_ne {β : Type} (d : List (String × β)) (k k' : String) (v : β)
    (h : k' ≠ k) : (setA d k v).lookup k' = d.lookup k' := by
  induction d with
  | nil =>
    show ([(k, v)] : List (String × β)).lookup k' = none
    rw [lookup_cons_ne k k' v [] h]
    rfl
  | cons p rest ih =>
    obtain ⟨a, b⟩ := p
    by_cases ha : a = k
    · have hka : k' ≠ a := fun hh => h (hh.trans ha)
      simp only [setA, ha, if_true, ite_true]
      rw [lookup_cons_ne k k' v rest h, lookup_cons_ne k k' b rest h]
    · simp only [setA, ha, if_false, ite_false]
      by_cases hb : k' = a
      · subst hb
        rw [lookup_cons_self, lookup_cons_self]
      · rw [lookup_cons_ne a k' b _ hb, lookup_cons_ne a k' b rest hb, ih]

theorem lookup_popA_ne {β : Type} (d : List (String × β)) (k k' : String)
    (h : k' ≠ k) : (popA d k).lookup k' = d.lookup k' := by
  induction d with
  | nil => rfl
  | cons p rest ih =>
    obtain ⟨a, b⟩ := p
    by_cases ha : a = k
    · have hcons : popA ((a, b) :: rest) k = popA rest k := by
        simp [popA, List.filter_cons, ha]
      have hka : k' ≠ a := fun hh => h (hh.trans ha)
      rw [hcons, ih, lookup_cons_ne a k' b rest hka]
    · have hcons : popA ((a, b) :: rest) k = (a, b) :: popA rest k := by
        simp [popA, List.filter_cons, ha]
      by_cases hb : k' = a
      · subst hb
        rw [hcons, lookup_cons_self, lookup_cons_self]
      · rw [hcons, lookup_cons_ne a k' b _ hb, lookup_cons_ne a k' b rest hb, ih]

theorem lookup_popA_self {β : Type} (d : List (String × β)) (k : String) :
    (popA d k).lookup k = none := by
  induction d with
  | nil => rfl
  | cons p rest ih =>
    obtain ⟨a, b⟩ := p
    by_cases ha : a = k
    · have hcons : popA ((a, b) :: rest) k = popA rest k := by
        simp [popA, List.filter_cons, ha]
      rw [hcons, ih]
    · have hcons : popA ((a, b) :: rest) k = (a, b) :: popA rest k := by
        simp [popA, List.filter_cons, ha]
      have hka : k ≠ a := fun hh => ha hh.symm
      rw [hcons, lookup_cons_ne a k b _ hka, ih]

theorem lookup_updA_notin {β : Type} (o : List (String × β)) :
    ∀ (d : List (String × β)) (k : String), k ∉ keysOf o →
      (updA d o).lookup k = d.lookup k := by
  induction o with
  | nil => intro d k _; rfl
  | cons p rest ih =>
    intro d k h
    obtain ⟨a, b⟩ := p
    simp only [keysOf, List.map_cons, List.mem_cons, not_or] at h
    have hstep : updA d ((a, b) :: rest) = updA (setA d a b) rest := rfl
    rw [hstep, ih (setA d a b) k (by simpa [keysOf] using h.2),
        lookup_setA_ne d a k b h.1]

theorem lookup_updA_mem {β : Type} (o : List (String × β)) :
    ∀ (d : List (String × β)) (k : String) (v : β), (keysOf o).Nodup →
      o.lookup k = some v → (updA d o).lookup k = some v := by
  induction o with
  | nil => intro d k v _ h; simp [List.lookup] at h
  | cons p rest ih =>
    intro d k v hn h
    obtain ⟨a, b⟩ := p
    have hstep : updA d ((a, b) :: rest) = updA (setA d a b) rest := rfl
    simp only [keysOf, List.map_cons, List.nodup_cons] at hn
    by_cases ha : k = a
    · subst ha
      rw [lookup_cons_self] at h
      injection h with hbv
      subst hbv
      rw [hstep, lookup_updA_notin rest (setA d k b) k (by simpa [keysOf] using hn.1),
          lookup_setA_self]
    · rw [lookup_cons_ne a k b rest ha] at h
      rw [hstep]
      exact ih (setA d a b) k v hn.2 h

/-! ## State-preservation lemmas for the discovery loop -/

theorem initCircuits_db (env : Env) (s : GState) (ct : String) :
    (initCircuits env s ct).1.db = s.db := by
  unfold initCircuits
  cases env.circInit ct s.db <;> rfl

theorem initCircuits_slot_ne (env : Env) (s : GState) (ct k : String) (h : k ≠ ct) :
    (initCircuits env s ct).1.data.lookup k = s.data.lookup k := by
  unfold initCircuits
  cases env.circInit ct s.db <;> simp [lookup_setA_ne _ _ _ _ h]

theorem initCircuits_slot_self (env : Env) (s : GState) (ct : String) :
    (initCircuits env s ct).1.data.lookup ct = some (expectedCircSlot env s.db ct) := by
  unfold initCircuits expectedCircSlot
  cases env.circInit ct s.db <;> simp [lookup_setA_self]

theorem getCapLoop_db (env : Env) (cts : List String) :
    ∀ s acc, (getCapLoop env cts s acc).1.db = s.db := by
  induction cts with
  | nil => intro s acc; rfl
  | cons ct rest ih =>
    intro s acc
    unfold getCapLoop
    rcases hc : initCircuits env s ct with ⟨s', r⟩
    have hdb : s'.db = s.db := by
      have h0 := initCircuits_db env s ct
      rw [hc] at h0
      exact h0
    cases r with
    | error e => rw [ih s' acc, hdb]
    | ok cs => rw [ih s' _, hdb]

theorem getCapLoop_caps (env : Env) (cts : List String) :
    ∀ s acc, (getCapLoop env cts s acc).2 =
      acc ++ cts.filter (fun ct => circOk env s.db ct) := by
  induction cts with
  | nil => intro s acc; simp [getCapLoop]
  | cons ct rest ih =>
    intro s acc
    unfold getCapLoop
    rcases hc : initCircuits env s ct with ⟨s', r⟩
    have hdb : s'.db = s.db := by
      have h0 := initCircuits_db env s ct
      rw [hc] at h0
      exact h0
    cases r with
    | error e =>
      have hok : circOk env s.db ct = false := by
        unfold initCircuits at hc
        unfold circOk
        cases hcc : env.circInit ct s.db with
        | error e' => rfl
        | ok cs => rw [hcc] at hc; simp at hc
      rw [ih s' acc, hdb, List.filter_cons, hok]
      simp
    | ok cs =>
      have hok : circOk env s.db ct = !cs.isEmpty := by
        unfold initCircuits at hc
        unfold circOk
        cases hcc : env.circInit ct s.db with
        | error e' => rw [hcc] at hc; simp at hc
        | ok cs' =>
          rw [hcc] at hc
          simp at hc
          rw [hc.2]
      rw [ih s' _, hdb, List.filter_cons, hok]
      by_cases he : cs.isEmpty
      · simp [he]
      · simp [he]

theorem getCapLoop_slot_notin (env : Env) (cts : List String) :
    ∀ s acc k, k ∉ cts →
      (getCapLoop env cts s acc).1.data.lookup k = s.data.lookup k := by
  induction cts with
  | nil => intro s acc k _; rfl
  | cons ct rest ih =>
    intro s acc k hk
    simp only [List.mem_cons, not_or] at hk
    unfold getCapLoop
    rcases hc : initCircuits env s ct with ⟨s', r⟩
    have hslot : s'.data.lookup k = s.data.lookup k := by
      have h0 := initCircuits_slot_ne env s ct k hk.1
      rw [hc] at h0
      exact h0
    cases r with
    | error e => rw [ih s' acc k hk.2, hslot]
    | ok cs => rw [ih s' _ k hk.2, hslot]

theorem getCapLoop_slot_mem (env : Env) (cts : List String) :
    ∀ s acc k, k ∈ cts → cts.Nodup →
      (getCapLoop env cts s acc).1.data.lookup k =
        some (expectedCircSlot env s.db k) := by
  induction cts with
  | nil => intro s acc k hk _; simp at hk
  | cons ct rest ih =>
    intro s acc k hk hnd
    rcases List.nodup_cons.mp hnd with ⟨hct, hnd'⟩
    unfold getCapLoop
    rcases hc : initCircuits env s ct with ⟨s', r⟩
    have hdb : s'.db = s.db := by
      have h0 := initCircuits_db env s ct
      rw [hc] at h0
      exact h0
    rcases List.mem_cons.mp hk with hk | hk
    · subst hk
      have hself : s'.data.lookup k = some (expectedCircSlot env s.db k) := by
        have h0 := initCircuits_slot_self env s k
        rw [hc] at h0
        exact h0
      cases r with
      | error e => rw [getCapLoop_slot_notin env rest s' acc k hct, hself]
      | ok cs => rw [getCapLoop_slot_notin env rest s' _ k hct, hself]
    · have hne : k ≠ ct := fun he => hct (he ▸ hk)
      have hslot : s.data.lookup k = s'.data.lookup k := by
        have h0 := initCircuits_slot_ne env s ct k hne
        rw [hc] at h0
        exact h0.symm
      cases r with
      | error e => rw [ih s' acc k hk hnd', hdb]
      | ok cs => rw [ih s' _ k hk hnd', hdb]

/-! ## Run lemmas for `get_capabilities` and the scan operations -/

theorem initSensors_db (env : Env) (s : GState) (choosed : Val) :
    (initSensors env s choosed).1.db = s.db := by
  unfold initSensors
  (repeat' split) <;> rfl

theorem initSensors_run (env : Env) (s : GState) (d : List (String × Val))
    (hdb : s.db = .vdict d) (dbS : Val) (hdbS : d.lookup SENSORS = some dbS) :
    initSensors env s .vnone =
      ({ s with data := setA s.data SENSORS (.sensors (env.mkSensors dbS dbS)) },
       .ok (env.mkSensors dbS dbS)) := by
  simp [initSensors, hdb, hdbS, truthy, valGet, getD0]

theorem get_capabilities_run (env : Env) (s : GState) (d : List (String × Val))
    (hdb : s.db = .vdict d) (dbS : Val) (hdbS : d.lookup SENSORS = some dbS) :
    get_capabilities env s =
      ({ (getCapLoop env CIRCUIT_TYPES s []).1 with
          data := setA (getCapLoop env CIRCUIT_TYPES s []).1.data SENSORS (.sensors (env.mkSensors dbS dbS)) },
       .ok (CIRCUIT_TYPES.filter (fun ct => circOk env (.vdict d) ct) ++ [SENSOR])) := by
  have hldb : (getCapLoop env CIRCUIT_TYPES s []).1.db = Val.vdict d := by
    rw [getCapLoop_db env CIRCUIT_TYPES s [], hdb]
  have hcaps : (getCapLoop env CIRCUIT_TYPES s []).2 =
      CIRCUIT_TYPES.filter (fun ct => circOk env (.vdict d) ct) := by
    rw [getCapLoop_caps env CIRCUIT_TYPES s [], hdb]
    simp
  have hrun := initSensors_run env (getCapLoop env CIRCUIT_TYPES s []).1 d hldb dbS hdbS
  simp only [get_capabilities]
  rw [hrun, hcaps]

theorem check_connection_db (env : Env) (s : GState) (hi : s.initialized = true) :
    (check_connection env s).1.db = s.db := by
  unfold check_connection
  rw [hi]
  (repeat' split) <;> first | rfl | simp_all

theorem current_date_db (env : Env) (s : GState) :
    (current_date env s).1.db = s.db := by
  unfold current_date
  (repeat' split) <;> rfl

theorem smallscan_state (env : Env) (s : GState) (t : String) :
    (smallscan env s t).1 = s := by
  unfold smallscan
  (repeat' split) <;> rfl

theorem deep_into_terminal (env : Env) (f : Nat) (u : String) (v : Val)
    (hg : env.connGet u = .ok v) (hc : env.childPaths v = []) :
    deep_into env (f + 1) u = (v, [u]) := by
  unfold deep_into
  simp only [hg, hc]

theorem smallscanLoop_all_terminal (env : Env) (fmt : String) (f : Nat)
    (hf : env.fuel = f + 1) (items : List Val)
    (h : ∀ it ∈ items, ∃ u, itemUri fmt it = .ok u ∧
        ∃ v, env.connGet u = .ok v ∧ env.childPaths v = []) :
    (smallscanLoop env fmt items).2 =
      items.filterMap (fun it => toOptE (itemUri fmt it)) ∧
    ∃ vs, (smallscanLoop env fmt items).1 = .ok vs := by
  induction items with
  | nil => exact ⟨rfl, [], rfl⟩
  | cons it rest ih =>
    obtain ⟨u, hu, v, hv, hcp⟩ := h it (by simp)
    obtain ⟨htr, vs, hvs⟩ := ih (fun x hx => h x (by simp [hx]))
    have hd : deep_into env env.fuel u = (v, [u]) := by
      rw [hf]
      exact deep_into_terminal env f u v hv hcp
    constructor
    · show (smallscanLoop env fmt (it :: rest)).2 = _
      simp only [smallscanLoop, hu, hd]
      simp [htr, hu, toOptE]
    · refine ⟨v :: vs, ?_⟩
      show (smallscanLoop env fmt (it :: rest)).1 = _
      simp only [smallscanLoop, hu, hd]
      simp [hvs, Except.map]

theorem filterMap_length_all_some {α β : Type} (f : α → Option β) :
    ∀ l : List α, (∀ x ∈ l, (f x).isSome = true) →
      (l.filterMap f).length = l.length := by
  intro l
  induction l with
  | nil => intro _; rfl
  | cons x rest ih =>
    intro h
    obtain ⟨y, hy⟩ := Option.isSome_iff_exists.mp (h x (by simp))
    rw [List.filterMap_cons, hy]
    simp [ih (fun z hz => h z (by simp [hz]))]

theorem filter_append_sensor_nodup (p : String → Bool) :
    (CIRCUIT_TYPES.filter p ++ [SENSOR]).Nodup := by
  apply List.Nodup.append
  · exact (by decide : CIRCUIT_TYPES.Nodup).filter p
  · simp
  · intro a ha hb
    simp at hb
    subst hb
    have hmem : SENSOR ∈ CIRCUIT_TYPES := List.mem_of_mem_filter ha
    exact absurd hmem (by decide)

/-! ## Claim theorems -/

/-- C8: for every gateway state in which no firmware version is known
(`_firmware_version` is `None`), `custom_initialize` is a no-op: it binds
no schema, does not set the initialized flag, and leaves every field of
the gateway state unchanged. -/
theorem c8_custom_initialize_noop (env : Env) (s : GState) (extraDb : Val)
    (h : s.firmware = .vnone) : customInitGw env s extraDb = s := by
  unfold customInitGw
  rw [h]
  rfl

/-- Witness for C8 at the freshly constructed gateway. -/
theorem c8_custom_initialize_noop_witness :
    (initState "host").firmware = Val.vnone ∧
    customInitGw envW (initState "host") Val.vnone = initState "host" :=
  ⟨rfl, c8_custom_initialize_noop envW (initState "host") Val.vnone rfl⟩

/-- C5 counterexample: on a freshly constructed gateway (categories not
yet probed) the `sensors` and `heating_circuits` accessors raise
`AttributeError` and `solar_circuits` raises `KeyError` instead of
returning an explicit "unknown" result, so the claim that every read
accessor never throws and returns `None` for unpopulated keys is false. -/
theorem c5_read_accessors_counterexample :
    sensors (initState "host") = .error .attributeError ∧
    heating_circuits (initState "host") = .error .attributeError ∧
    solar_circuits (initState "host") = .error .keyError := by
  exact ⟨rfl, rfl, rfl⟩

/-- C5 (amended): every read accessor is a pure lookup into current
in-memory state and issues no fetch (none of these functions consults the
transport `Env`); `get_info`, `uuid`, `firmware`, `device_name`,
`database` and `get_circuits` on an unknown category return an explicit
`none`/`Option` result and never throw, while the per-collection
accessors (`heating_circuits`, `dhw_circuits`, `solar_circuits`,
`sensors`) return the collection only when their category has been
populated and raise `AttributeError`/`KeyError` otherwise. -/
theorem c5_read_accessors_amended (s : GState) (k ct : String) :
    ((gwData s).lookup k = none → get_info s k = none) ∧
    uuid s = get_info s UUID ∧
    (s.device = none → device_name s = none) ∧
    (s.data.lookup ct = none → get_circuits s ct = .ok none) ∧
    (∀ cs, s.data.lookup ct = some (.circuits cs) → get_circuits s ct = .ok (some cs)) ∧
    (s.data.lookup HC = some .pynone → heating_circuits s = .error .attributeError) ∧
    (s.data.lookup DHW = some .pynone → dhw_circuits s = .error .attributeError) ∧
    (s.data.lookup SC = none → solar_circuits s = .error .keyError) ∧
    (s.data.lookup SENSORS = some .pynone → sensors s = .error .attributeError) ∧
    (∀ cs, s.data.lookup HC = some (.circuits cs) → heating_circuits s = .ok cs) ∧
    (∀ ss, s.data.lookup SENSORS = some (.sensors ss) → sensors s = .ok ss) ∧
    database s = s.db ∧ firmwareProp s = s.firmware := by
  refine ⟨?_, rfl, ?_, ?_, ?_, ?_, ?_, ?_, ?_, ?_, ?_, rfl, rfl⟩
  · intro h
    exact h
  · intro h
    unfold device_name
    rw [h]
  · intro h
    unfold get_circuits
    rw [h]
  · intro cs h
    unfold get_circuits
    rw [h]
  · intro h
    unfold heating_circuits
    rw [h]
  · intro h
    unfold dhw_circuits
    rw [h]
  · intro h
    unfold solar_circuits
    rw [h]
  · intro h
    unfold sensors
    rw [h]
  · intro cs h
    unfold heating_circuits
    rw [h]
  · intro ss h
    unfold sensors
    rw [h]

/-- Witness for C5 (amended) at the freshly constructed gateway. -/
theorem c5_read_accessors_amended_witness :
    get_info (initState "host") UUID = none ∧
    device_name (initState "host") = none ∧
    get_circuits (initState "host") SC = .ok none ∧
    sensors (initState "host") = .error .attributeError ∧
    solar_circuits (initState "host") = .error .keyError := by
  have h := c5_read_accessors_amended (initState "host") UUID SC
  exact ⟨h.1 rfl, h.2.2.1 rfl, h.2.2.2.1 rfl,
    h.2.2.2.2.2.2.2.2.1 rfl, h.2.2.2.2.2.2.2.1 rfl⟩

/-- C1: on an initialized gateway (bound schema dictionary that carries a
sensors section — the state every documented flow reaches before
discovery), `get_capabilities` returns normally; a circuit category whose
discovery raises `DeviceException` is excluded from the returned
capability set without aborting the remaining categories (the set is
exactly the filter of the successfully discovered, non-empty categories),
the sensors are always initialized, and `SENSOR` is always included. -/
theorem c1_get_capabilities_soft_failure (env : Env) (s : GState)
    (d : List (String × Val)) (hdb : s.db = .vdict d)
    (dbS : Val) (hdbS : d.lookup SENSORS = some dbS) :
    ∃ s' : GState,
      get_capabilities env s =
        (s', .ok (CIRCUIT_TYPES.filter (fun ct => circOk env s.db ct) ++ [SENSOR])) ∧
      SENSOR ∈ CIRCUIT_TYPES.filter (fun ct => circOk env s.db ct) ++ [SENSOR] ∧
      (∀ ct, ct ∈ CIRCUIT_TYPES → env.circInit ct s.db = .error () →
        ct ∉ CIRCUIT_TYPES.filter (fun ct => circOk env s.db ct) ++ [SENSOR]) ∧
      (∀ ct, ct ∈ CIRCUIT_TYPES → circOk env s.db ct = true →
        ct ∈ CIRCUIT_TYPES.filter (fun ct => circOk env s.db ct) ++ [SENSOR]) ∧
      ∃ col, s'.data.lookup SENSORS = some (.sensors col) := by
  have hrun := get_capabilities_run env s d hdb dbS hdbS
  rw [hdb]
  refine ⟨_, hrun, ?_, ?_, ?_, ?_⟩
  · simp
  · intro ct hct herr hmem
    rcases List.mem_append.mp hmem with hmf | hms
    · have hok := (List.mem_filter.mp hmf).2
      simp [circOk, herr] at hok
    · simp at hms
      subst hms
      exact absurd hct (by decide)
  · intro ct hct hok
    exact List.mem_append.mpr (Or.inl (List.mem_filter.mpr ⟨hct, hok⟩))
  · refine ⟨env.mkSensors dbS dbS, ?_⟩
    show (setA (getCapLoop env CIRCUIT_TYPES s []).1.data SENSORS
        (.sensors (env.mkSensors dbS dbS))).lookup SENSORS = _
    rw [lookup_setA_self]

/-- Witness for C1: in the concrete environment `envW`, dhw discovery
raises a `DeviceException` while heating-circuit discovery succeeds; the
returned set is exactly the heating circuit category plus the sensor
category. -/
theorem c1_get_capabilities_soft_failure_witness :
    envW.circInit DHW sW.db = .error () ∧
    get_capabilities envW sW = ((get_capabilities envW sW).1, .ok [HC, SENSOR]) ∧
    DHW ∉ [HC, SENSOR] ∧ SENSOR ∈ [HC, SENSOR] ∧
    ∃ col, (get_capabilities envW sW).1.data.lookup SENSORS = some (.sensors col) := by
  obtain ⟨s', h1, _h2, _h3, _h4, col, h5⟩ :=
    c1_get_capabilities_soft_failure envW sW mergedW rfl
      (Val.vdict [("outdoor", Val.vdict [(ID, Val.str "/system/sensors/temperatures/outdoor_t1")])])
      rfl
  have hfil : List.filter (fun ct => circOk envW sW.db ct) CIRCUIT_TYPES = [HC] := rfl
  refine ⟨rfl, ?_, by decide, by decide, ?_⟩
  · rw [h1, hfil]
    rfl
  · rw [h1]
    exact ⟨col, h5⟩

/-- C7: with no change in device state (same environment oracles), two
consecutive `get_capabilities` runs after `initialize` yield the same
capability set, the set has no duplicates, and the second run's
per-category collections fully replace the first run's: every circuit
slot equals the freshly discovered collection determined by the bound
schema alone (`expectedCircSlot`), and the sensors slot is rebuilt to the
same fresh collection. -/
theorem c7_get_capabilities_idempotent (env : Env) (s : GState)
    (d : List (String × Val)) (hdb : s.db = .vdict d)
    (dbS : Val) (hdbS : d.lookup SENSORS = some dbS) :
    ∃ (s1 s2 : GState) (caps : List String),
      get_capabilities env s = (s1, .ok caps) ∧
      get_capabilities env s1 = (s2, .ok caps) ∧
      caps.Nodup ∧
      (∀ ct, ct ∈ CIRCUIT_TYPES →
        s1.data.lookup ct = some (expectedCircSlot env (.vdict d) ct) ∧
        s2.data.lookup ct = some (expectedCircSlot env (.vdict d) ct)) ∧
      s1.data.lookup SENSORS = some (.sensors (env.mkSensors dbS dbS)) ∧
      s2.data.lookup SENSORS = some (.sensors (env.mkSensors dbS dbS)) := by
  have hnds : ∀ ct ∈ CIRCUIT_TYPES, ct ≠ SENSORS := by decide
  have hnd : CIRCUIT_TYPES.Nodup := by decide
  have hrun1 := get_capabilities_run env s d hdb dbS hdbS
  have hs1db : ({ (getCapLoop env CIRCUIT_TYPES s []).1 with
      data := setA (getCapLoop env CIRCUIT_TYPES s []).1.data SENSORS
        (.sensors (env.mkSensors dbS dbS)) } : GState).db = Val.vdict d := by
    show (getCapLoop env CIRCUIT_TYPES s []).1.db = Val.vdict d
    rw [getCapLoop_db env CIRCUIT_TYPES s [], hdb]
  have hrun2 := get_capabilities_run env _ d hs1db dbS hdbS
  refine ⟨_, _, _, hrun1, hrun2, filter_append_sensor_nodup _, ?_, ?_, ?_⟩
  · intro ct hct
    constructor
    · show (setA (getCapLoop env CIRCUIT_TYPES s []).1.data SENSORS
          (.sensors (env.mkSensors dbS dbS))).lookup ct = _
      rw [lookup_setA_ne _ _ _ _ (hnds ct hct),
          getCapLoop_slot_mem env CIRCUIT_TYPES s [] ct hct hnd, hdb]
    · show (setA (getCapLoop env CIRCUIT_TYPES _ []).1.data SENSORS
          (.sensors (env.mkSensors dbS dbS))).lookup ct = _
      rw [lookup_setA_ne _ _ _ _ (hnds ct hct),
          getCapLoop_slot_mem env CIRCUIT_TYPES _ [] ct hct hnd, hs1db]
  · show (setA (getCapLoop env CIRCUIT_TYPES s []).1.data SENSORS
        (.sensors (env.mkSensors dbS dbS))).lookup SENSORS = _
    rw [lookup_setA_self]
  · show (setA (getCapLoop env CIRCUIT_TYPES _ []).1.data SENSORS
        (.sensors (env.mkSensors dbS dbS))).lookup SENSORS = _
    rw [lookup_setA_self]

/-- Witness for C7 in the concrete witness environment: both runs return
the capability set containing exactly the heating-circuit and sensor
categories. -/
theorem c7_get_capabilities_idempotent_witness :
    ∃ (s1 s2 : GState) (caps : List String),
      get_capabilities envW sW = (s1, .ok caps) ∧
      get_capabilities envW s1 = (s2, .ok caps) ∧
      caps.Nodup ∧
      s1.data.lookup SENSORS = some (.sensors ["outdoor"]) := by
  obtain ⟨s1, s2, caps, h1, h2, h3, _h4, h5, _h6⟩ :=
    c7_get_capabilities_idempotent envW sW mergedW rfl
      (Val.vdict [("outdoor", Val.vdict [(ID, Val.str "/system/sensors/temperatures/outdoor_t1")])])
      rfl
  exact ⟨s1, s2, caps, h1, h2, h3, h5⟩

/-- C2 counterexample: when the single UUID re-read succeeds with a
`None` response (within the transport contract's "value-or-structured-
response"), `VALUE in response` raises an uncaught `TypeError`, so
`check_connection` does not return the cached UUID: the claim that the
method always returns the currently cached UUID and lets no exception
escape beyond device-communication errors is false. -/
theorem c2_check_connection_counterexample :
    sW.initialized = true ∧
    envNull.connGet "/gateway/uuid" = .ok .vnone ∧
    check_connection envNull sW = (sW, .error .typeError, ["/gateway/uuid"]) ∧
    (Except.error .typeError : Except PyErr (Option Val)) ≠ .ok (get_info sW UUID) := by
  refine ⟨rfl, rfl, rfl, ?_⟩
  intro h
  exact Except.noConfusion h

/-- C2 (amended): `check_connection` performs the full `initialize` when
the gateway is not yet initialized and otherwise issues exactly one
fetch, of the schema's gateway UUID path; a `DeviceException` is
swallowed in either branch and the previously cached UUID is returned
unchanged when the re-read fails; when the re-read yields a dictionary
response the method returns the UUID cached in the state it leaves —
but a `None` response makes the uncaught `TypeError` of
`VALUE in response` escape instead of returning the cached UUID. -/
theorem c2_check_connection_amended (env : Env) (s : GState) :
    (s.initialized = false →
      (∀ s1 : GState, initializeGw env s = (s1, none) →
        check_connection env s = (s1, .ok (get_info s1 UUID), [])) ∧
      (∀ s1 : GState, initializeGw env s = (s1, some .deviceException) →
        check_connection env s = (s1, .ok (get_info s1 UUID), []))) ∧
    (s.initialized = true → ∀ p, dbGwUuidPath s.db = .ok p →
      (check_connection env s).2.2 = [p] ∧
      (env.connGet p = .error () →
        check_connection env s = (s, .ok (get_info s UUID), [p])) ∧
      (∀ rd, env.connGet p = .ok (.vdict rd) →
        (check_connection env s).2.1 =
          .ok (get_info (check_connection env s).1 UUID)) ∧
      (env.connGet p = .ok .vnone →
        check_connection env s = (s, .error .typeError, [p]))) := by
  constructor
  · intro hinit
    constructor
    · intro s1 hI
      unfold check_connection
      rw [hinit]
      simp only [hI, Bool.false_eq_true, if_false, ite_false]
    · intro s1 hI
      unfold check_connection
      rw [hinit]
      simp only [hI, Bool.false_eq_true, if_false, ite_false]
  · intro hinit p hp
    refine ⟨?_, ?_, ?_, ?_⟩
    · unfold check_connection
      rw [hinit, if_pos rfl]
      (repeat' split) <;> simp_all
    · intro hg
      unfold check_connection
      rw [hinit, if_pos rfl]
      (repeat' split) <;> simp_all
    · intro rd hg
      unfold check_connection
      rw [hinit, if_pos rfl]
      (repeat' split) <;> simp_all
    · intro hg
      unfold check_connection
      rw [hinit, if_pos rfl]
      (repeat' split) <;> simp_all

/-- Witness for C2 (amended): on the fresh gateway the call runs the
full `initialize`; on the initialized gateway the failing transport's
error is swallowed and the cached UUID returned unchanged; a dictionary
response returns the cached UUID of the final state; a `None` response
escapes with `TypeError`. -/
theorem c2_check_connection_amended_witness :
    check_connection envW (initState "host") = (sW, .ok (get_info sW UUID), []) ∧
    (check_connection envFail sW).2.2 = ["/gateway/uuid"] ∧
    check_connection envFail sW = (sW, .ok (get_info sW UUID), ["/gateway/uuid"]) ∧
    (check_connection envW sW).2.1 =
      .ok (get_info (check_connection envW sW).1 UUID) ∧
    check_connection envNull sW = (sW, .error .typeError, ["/gateway/uuid"]) := by
  have h := (c2_check_connection_amended envFail sW).2 rfl "/gateway/uuid" rfl
  have h2 := (c2_check_connection_amended envW sW).2 rfl "/gateway/uuid" rfl
  have h3 := (c2_check_connection_amended envNull sW).2 rfl "/gateway/uuid" rfl
  exact ⟨((c2_check_connection_amended envW (initState "host")).1 rfl).1 sW rfl,
    h.1, h.2.1 rfl,
    h2.2.2.1 [(VALUE, Val.str "123456789")] rfl,
    h3.2.2.2 rfl⟩


/-- Closed form of the state left by the already-initialized branch of
`check_connection` as a function of the transport response. -/
theorem check_connection_state_resp (env : Env) (s : GState)
    (hi : s.initialized = true) (p : String) (hp : dbGwUuidPath s.db = .ok p)
    (resp : Val) (hg : env.connGet p = .ok resp) :
    (check_connection env s).1 =
      (match resp with
       | .vdict rd =>
         (match rd.lookup VALUE with
          | some v => { s with data := setA s.data GATEWAY (.gw (setA (gwData s) UUID v)) }
          | none => s)
       | .vnone => s
       | .str _ => s
       | .vlist _ => s) := by
  unfold check_connection
  rw [hi, if_pos rfl]
  (repeat' split) <;> simp_all [-List.lookup_eq_none_iff]

/-- C10: on the already-initialized path of `check_connection`, the
cached gateway UUID is overwritten only when the transport response is a
dictionary with a `VALUE` entry; for a response lacking `VALUE`, for a
non-dictionary response, and on a communication failure the whole state
is returned unchanged, and on the overwrite path the only changed field
is the `UUID` entry of the gateway-info dict. -/
theorem c10_check_connection_frame (env : Env) (s : GState)
    (hi : s.initialized = true) (p : String) (hp : dbGwUuidPath s.db = .ok p) :
    (env.connGet p = .error () → (check_connection env s).1 = s) ∧
    (∀ rd, env.connGet p = .ok (.vdict rd) → rd.lookup VALUE = none →
      (check_connection env s).1 = s) ∧
    (env.connGet p = .ok .vnone → (check_connection env s).1 = s) ∧
    (∀ a, env.connGet p = .ok (.str a) → (check_connection env s).1 = s) ∧
    (∀ l, env.connGet p = .ok (.vlist l) → (check_connection env s).1 = s) ∧
    (∀ rd v, env.connGet p = .ok (.vdict rd) → rd.lookup VALUE = some v →
      (check_connection env s).1 =
        { s with data := setA s.data GATEWAY (.gw (setA (gwData s) UUID v)) }) := by
  refine ⟨?_, ?_, ?_, ?_, ?_, ?_⟩
  · intro hg
    unfold check_connection
    rw [hi, if_pos rfl]
    (repeat' split) <;> simp_all
  · intro rd hg hnone
    rw [check_connection_state_resp env s hi p hp _ hg]
    simp [hnone]
  · intro hg
    rw [check_connection_state_resp env s hi p hp _ hg]
  · intro a hg
    rw [check_connection_state_resp env s hi p hp _ hg]
  · intro l hg
    rw [check_connection_state_resp env s hi p hp _ hg]
  · intro rd v hg hsome
    rw [check_connection_state_resp env s hi p hp _ hg]
    simp [hsome]

/-- Witness for C10: with the failing transport the state is unchanged;
with the live transport the response carries `VALUE` and exactly the
cached UUID entry is rewritten. -/
theorem c10_check_connection_frame_witness :
    (check_connection envFail sW).1 = sW ∧
    (check_connection envW sW).1 =
      { sW with
          data := setA sW.data GATEWAY (.gw (setA (gwData sW) UUID (Val.str "123456789"))) } := by
  refine ⟨(c10_check_connection_frame envFail sW rfl "/gateway/uuid" rfl).1 rfl, ?_⟩
  exact (c10_check_connection_frame envW sW rfl "/gateway/uuid" rfl).2.2.2.2.2
    [(VALUE, Val.str "123456789")] (Val.str "123456789") rfl rfl

/-- After a successful `_update_info` read, `initialize` stores as
`_firmware_version` the `FIRMWARE_VERSION` entry of the updated
gateway-info dict, on every subsequent path. -/
theorem initializeGw_firmware (env : Env) (s : GState)
    (fetched : List (String × Val))
    (hU : env.updateInfo (getD0 env.initialDb GATEWAY) = .ok fetched) :
    (initializeGw env s).1.firmware = fwAfter s fetched := by
  unfold initializeGw fwAfter
  simp only [hU]
  (repeat' split) <;> rfl

/-- Closed form of a fully successful `initialize` run. -/
theorem initializeGw_success_run (env : Env) (s : GState)
    (fetched : List (String × Val)) (d : List (String × Val)) (dtype : Val)
    (dbd : List (String × Val))
    (hU : env.updateInfo (getD0 env.initialDb GATEWAY) = .ok fetched)
    (hD : env.getDeviceModel = .ok (some d))
    (hdE : d.isEmpty = false)
    (hV : (d.lookup VALUE).isSome = true)
    (hT : d.lookup TYPE = some dtype)
    (hF : env.getDbOfFirmware dtype (fwAfter s fetched) = some dbd)
    (hbE : dbd.isEmpty = false) :
    initializeGw env s =
      ({ s with
          data := setA s.data GATEWAY (.gw (updA (gwData s) fetched))
          firmware := fwAfter s fetched
          device := some d
          db := .vdict (updA dbd (popA env.initialDb MODELS))
          initialized := true }, none) := by
  unfold fwAfter at hF
  unfold initializeGw
  simp only [hU, hD, hdE, hV, hT, hF, hbE, Bool.false_eq_true, if_false,
    ite_false, if_true, ite_true]
  rfl

/-- `get_capabilities` never touches the bound schema. -/
theorem get_capabilities_db (env : Env) (s : GState) :
    (get_capabilities env s).1.db = s.db := by
  have h1 := initSensors_db env (getCapLoop env CIRCUIT_TYPES s []).1 Val.vnone
  have h2 := getCapLoop_db env CIRCUIT_TYPES s []
  simp only [get_capabilities]
  rcases hr : initSensors env (getCapLoop env CIRCUIT_TYPES s []).1 Val.vnone with ⟨sx, r⟩
  rw [hr] at h1
  cases r <;> simp_all

/-- C3: starting from a not-yet-initialized gateway, `initialize` marks
the gateway initialized only if the fetched device-model descriptor
carries a `VALUE` entry and `get_db_of_firmware` resolves a non-empty
schema for the descriptor's `TYPE` and the firmware version; that
firmware version is the one populated from the gateway-info read
(`fwAfter`), which is stored before the model fetch is used, and on
success the bound schema is the resolved one merged with the base
schema. -/
theorem c3_initialize_ready_conditions (env : Env) (s : GState)
    (h0 : s.initialized = false) :
    ((initializeGw env s).1.initialized = true →
      ∃ (fetched d : List (String × Val)) (dtype : Val) (dbd : List (String × Val)),
        env.updateInfo (getD0 env.initialDb GATEWAY) = .ok fetched ∧
        env.getDeviceModel = .ok (some d) ∧
        (d.lookup VALUE).isSome = true ∧
        d.lookup TYPE = some dtype ∧
        env.getDbOfFirmware dtype (fwAfter s fetched) = some dbd ∧
        dbd ≠ [] ∧
        (initializeGw env s).1.firmware = fwAfter s fetched ∧
        (initializeGw env s).1.db = .vdict (updA dbd (popA env.initialDb MODELS))) ∧
    (∀ fetched, env.updateInfo (getD0 env.initialDb GATEWAY) = .ok fetched →
      (initializeGw env s).1.firmware = fwAfter s fetched) := by
  constructor
  · intro hready
    unfold initializeGw at hready
    dsimp only at hready
    split at hready
    · simp [h0] at hready
    · rename_i fetched hU
      split at hready
      · simp [h0] at hready
      · rename_i dev hD
        split at hready
        · simp [h0] at hready
        · rename_i d
          split at hready
          · simp [h0] at hready
          · rename_i hdE
            split at hready
            · rename_i hV
              split at hready
              · simp [h0] at hready
              · rename_i dtype hT
                split at hready
                · simp [h0] at hready
                · rename_i dbd hF
                  split at hready
                  · simp [h0] at hready
                  · rename_i hbE
                    have hdE' : d.isEmpty = false := by
                      simpa using hdE
                    have hbE' : dbd.isEmpty = false := by
                      simpa using hbE
                    have hF' : env.getDbOfFirmware dtype (fwAfter s fetched) = some dbd := hF
                    have hrun := initializeGw_success_run env s fetched d dtype dbd
                      hU hD hdE' hV hT hF' hbE'
                    refine ⟨fetched, d, dtype, dbd, hU, hD, hV, hT, hF', ?_, ?_, ?_⟩
                    · intro hnil
                      rw [hnil] at hbE'
                      simp at hbE'
                    · rw [hrun]
                    · rw [hrun]
            · simp [h0] at hready
  · intro fetched hU
    exact initializeGw_firmware env s fetched hU

/-- Witness for C3: in the witness environment the fresh gateway reaches
the initialized state, and the theorem's conditions are all realized. -/
theorem c3_initialize_ready_conditions_witness :
    (initState "host").initialized = false ∧
    (initializeGw envW (initState "host")).1.initialized = true ∧
    ∃ (fetched d : List (String × Val)) (dtype : Val) (dbd : List (String × Val)),
      envW.updateInfo (getD0 envW.initialDb GATEWAY) = .ok fetched ∧
      envW.getDeviceModel = .ok (some d) ∧
      (d.lookup VALUE).isSome = true ∧
      d.lookup TYPE = some dtype ∧
      envW.getDbOfFirmware dtype (fwAfter (initState "host") fetched) = some dbd ∧
      dbd ≠ [] ∧
      (initializeGw envW (initState "host")).1.firmware = fwAfter (initState "host") fetched ∧
      (initializeGw envW (initState "host")).1.db =
        .vdict (updA dbd (popA envW.initialDb MODELS)) :=
  ⟨rfl, rfl,
    (c3_initialize_ready_conditions envW (initState "host") rfl).1 rfl⟩

/-- C6 counterexample: in the witness environment the firmware-specific
schema and the base schema both carry a `SENSORS` section with different
values; after `initialize` the merged schema holds the base-schema entry,
not the device-specific one, because `dict.update(initial_db)` lets the
base entries overwrite.  This refutes the claim that the merge prefers
the device-specific entry. -/
theorem c6_schema_merge_counterexample :
    fwDbW.lookup SENSORS = some (Val.str "fw") ∧
    (popA baseDbW MODELS).lookup SENSORS =
      some (Val.vdict [("outdoor", Val.vdict [(ID, Val.str "/system/sensors/temperatures/outdoor_t1")])]) ∧
    envW.getDbOfFirmware (Val.str "rc300") (Val.str "1.2.3") = some fwDbW ∧
    sW.db = Val.vdict mergedW ∧
    mergedW.lookup SENSORS =
      some (Val.vdict [("outdoor", Val.vdict [(ID, Val.str "/system/sensors/temperatures/outdoor_t1")])]) ∧
    Val.vdict [("outdoor", Val.vdict [(ID, Val.str "/system/sensors/temperatures/outdoor_t1")])] ≠
      Val.str "fw" := by
  refine ⟨rfl, rfl, rfl, rfl, rfl, ?_⟩
  intro h
  exact Val.noConfusion h

/-- C6 (amended): when `initialize` (or `custom_initialize`) binds a
firmware-specific schema and merges the remaining base-schema sections
into it, for every section name present in both, the merged schema keeps
the BASE-schema entry (the `dict.update(initial_db)` call overwrites the
device-specific one). -/
theorem c6_schema_merge_base_wins (env : Env) (s : GState)
    (fetched : List (String × Val)) (d : List (String × Val)) (dtype : Val)
    (dbd : List (String × Val))
    (hU : env.updateInfo (getD0 env.initialDb GATEWAY) = .ok fetched)
    (hD : env.getDeviceModel = .ok (some d))
    (hV : (d.lookup VALUE).isSome = true)
    (hT : d.lookup TYPE = some dtype)
    (hF : env.getDbOfFirmware dtype (fwAfter s fetched) = some dbd)
    (hbE : dbd.isEmpty = false)
    (hnd : (keysOf (popA env.initialDb MODELS)).Nodup)
    (hndc : (keysOf (popA env.initialDbCustom MODELS)).Nodup) :
    (initializeGw env s).1.db = .vdict (updA dbd (popA env.initialDb MODELS)) ∧
    (∀ k v, (popA env.initialDb MODELS).lookup k = some v →
      (updA dbd (popA env.initialDb MODELS)).lookup k = some v) ∧
    (truthy s.firmware = true → ∀ extra,
      (customInitGw env s extra).db =
        .vdict (updA (env.getCustomDb s.firmware extra) (popA env.initialDbCustom MODELS))) ∧
    (∀ extra k v, (popA env.initialDbCustom MODELS).lookup k = some v →
      (updA (env.getCustomDb s.firmware extra) (popA env.initialDbCustom MODELS)).lookup k
        = some v) := by
  have hdE : d.isEmpty = false := by
    cases d with
    | nil => simp [List.lookup] at hV
    | cons p r => rfl
  have hrun := initializeGw_success_run env s fetched d dtype dbd hU hD hdE hV hT hF hbE
  refine ⟨by rw [hrun], ?_, ?_, ?_⟩
  · intro k v hkv
    exact lookup_updA_mem (popA env.initialDb MODELS) dbd k v hnd hkv
  · intro htr extra
    unfold customInitGw
    rw [htr]
    rfl
  · intro extra k v hkv
    exact lookup_updA_mem (popA env.initialDbCustom MODELS) (env.getCustomDb s.firmware extra) k v hndc hkv

/-- Witness for C6 (amended): concrete overlap of the `SENSORS` section,
where the merged schema keeps the base entry. -/
theorem c6_schema_merge_base_wins_witness :
    (initializeGw envW (initState "host")).1.db = .vdict (updA fwDbW (popA envW.initialDb MODELS)) ∧
    (updA fwDbW (popA envW.initialDb MODELS)).lookup SENSORS =
      some (Val.vdict [("outdoor", Val.vdict [(ID, Val.str "/system/sensors/temperatures/outdoor_t1")])]) := by
  have h := c6_schema_merge_base_wins envW (initState "host")
    [(FIRMWARE_VERSION, Val.str "1.2.3"), (UUID, Val.str "123456789")]
    [(VALUE, Val.str "RC300"), (TYPE, Val.str "rc300"), (NAME, Val.str "RC300")]
    (Val.str "rc300") fwDbW rfl rfl rfl rfl rfl rfl (by decide) (by decide)
  exact ⟨h.1, h.2.1 SENSORS
    (Val.vdict [("outdoor", Val.vdict [(ID, Val.str "/system/sensors/temperatures/outdoor_t1")])]) rfl⟩

/-- C9: once a schema is bound (truthy `_db`) the gateway is initialized
(the only code paths that bind a truthy schema also set the flag), and
then no operation other than a fresh `initialize`/`custom_initialize`
replaces or mutates it: `get_capabilities`, `check_connection` and
`current_date` leave `_db` exactly as it was, and `rawscan` and
`smallscan` leave the whole state unchanged (the read accessors take no
state at all apart from reading it). -/
theorem c9_schema_binding_stable (env : Env) (s : GState)
    (_hb : truthy s.db = true) (hi : s.initialized = true) :
    (get_capabilities env s).1.db = s.db ∧
    (check_connection env s).1.db = s.db ∧
    (current_date env s).1.db = s.db ∧
    (rawscan env s).1 = s ∧
    (∀ t, (smallscan env s t).1 = s) := by
  exact ⟨get_capabilities_db env s, check_connection_db env s hi,
    current_date_db env s, rfl, fun t => smallscan_state env s t⟩

/-- Witness for C9 at the initialized witness gateway. -/
theorem c9_schema_binding_stable_witness :
    truthy sW.db = true ∧ sW.initialized = true ∧
    (get_capabilities envW sW).1.db = sW.db ∧
    (check_connection envW sW).1.db = sW.db ∧
    (current_date envW sW).1.db = sW.db ∧
    (rawscan envW sW).1 = sW ∧
    (smallscan envW sW HC).1 = sW := by
  have h := c9_schema_binding_stable envW sW rfl rfl
  exact ⟨rfl, rfl, h.1, h.2.1, h.2.2.1, h.2.2.2.1, h.2.2.2.2 HC⟩

/-- C4 counterexample: `smallscan` hands each reference to the recursive
tree prober `deep_into`, not to a one-level fetch.  With one heating
circuit reference whose response lists two children, the scan issues
three fetches — not exactly one fetch per reference — and descends below
the reference level.  This refutes the claim as stated. -/
theorem c4_smallscan_counterexample :
    smallscanRefs sW.db HC =
      .ok (.vdict [("t1", .vdict [(ID, .str "/hc/\x7b\x7d/temp")])], "hc1") ∧
    (smallscan envC4 sW HC).2.2 = ["/hc/hc1/temp", "/a", "/b"] ∧
    (smallscan envC4 sW HC).2.2.length = 3 ∧
    (3 : Nat) ≠ 1 := by
  exact ⟨rfl, rfl, rfl, by decide⟩

/-- C4 (amended): `smallscan` runs exactly one `deep_into` scan per
reference of the category in the bound schema, with the instance label
substituted into each path template (`itemUri` applies the substitution);
when every substituted path answers with a terminal value, this is
exactly one fetch per reference, in schema order — but when a response
lists children the prober recurses, so "exactly one fetch per reference"
holds only for terminal responses. -/
theorem c4_smallscan_per_reference (env : Env) (s : GState)
    (d hsec refsd : List (String × Val)) (f : Nat)
    (h1 : s.db = .vdict d)
    (h2 : d.lookup HEATING_CIRCUITS = some (.vdict hsec))
    (h3 : hsec.lookup REFS = some (.vdict refsd))
    (hf : env.fuel = f + 1)
    (hterm : ∀ p ∈ refsd, ∃ u, itemUri "hc1" p.2 = .ok u ∧
        ∃ v, env.connGet u = .ok v ∧ env.childPaths v = []) :
    (smallscan env s HC).1 = s ∧
    (smallscan env s HC).2.2 =
      refsd.filterMap (fun p => toOptE (itemUri "hc1" p.2)) ∧
    (smallscan env s HC).2.2.length = refsd.length ∧
    ∃ vs, (smallscan env s HC).2.1 = .ok vs := by
  have hrefs : smallscanRefs s.db HC = .ok (.vdict refsd, "hc1") := by
    unfold smallscanRefs valGet getD0
    simp [h1, h2, h3]
  have hitems : ∀ it ∈ refsd.map Prod.snd, ∃ u, itemUri "hc1" it = .ok u ∧
      ∃ v, env.connGet u = .ok v ∧ env.childPaths v = [] := by
    intro it hit
    obtain ⟨p, hp, hpe⟩ := List.mem_map.mp hit
    subst hpe
    exact hterm p hp
  have hloop := smallscanLoop_all_terminal env "hc1" f hf (refsd.map Prod.snd) hitems
  have hss : smallscan env s HC =
      (s, (smallscanLoop env "hc1" (refsd.map Prod.snd)).1,
          (smallscanLoop env "hc1" (refsd.map Prod.snd)).2) := by
    unfold smallscan
    rw [hrefs]
  have htr : (smallscan env s HC).2.2 =
      refsd.filterMap (fun p => toOptE (itemUri "hc1" p.2)) := by
    rw [hss]
    show (smallscanLoop env "hc1" (refsd.map Prod.snd)).2 = _
    rw [hloop.1, List.filterMap_map]
    rfl
  refine ⟨by rw [hss], htr, ?_, ?_⟩
  · rw [htr]
    exact filterMap_length_all_some _ refsd (fun p hp => by
      obtain ⟨u, hu, _⟩ := hterm p hp
      rw [hu]
      rfl)
  · obtain ⟨vs, hvs⟩ := hloop.2
    refine ⟨vs, ?_⟩
    rw [hss]
    exact hvs

/-- Witness for C4 (amended): in the witness environment every response
is terminal, and the scan issues exactly one fetch for the single
heating-circuit reference, with `hc1` substituted. -/
theorem c4_smallscan_per_reference_witness :
    (smallscan envW sW HC).1 = sW ∧
    (smallscan envW sW HC).2.2 = ["/hc/hc1/temp"] ∧
    (smallscan envW sW HC).2.2.length =
      [("t1", Val.vdict [(ID, Val.str "/hc/\x7b\x7d/temp")])].length ∧
    ∃ vs, (smallscan envW sW HC).2.1 = .ok vs := by
  have h := c4_smallscan_per_reference envW sW mergedW
    [(REFS, Val.vdict [("t1", Val.vdict [(ID, Val.str "/hc/\x7b\x7d/temp")])])]
    [("t1", Val.vdict [(ID, Val.str "/hc/\x7b\x7d/temp")])] 7 rfl rfl rfl rfl
    (by
      intro p hp
      simp at hp
      subst hp
      exact ⟨"/hc/hc1/temp", rfl, Val.str "leaf", rfl, rfl⟩)
  refine ⟨h.1, ?_, h.2.2.1, h.2.2.2⟩
  rw [h.2.1]
  rfl
